import Mathlib

/-!
# Family-graph core: shallow embedding and verification

This file embeds the family-tree backend's core (family controller,
member/branch/link models, join-code issuer) as executable Lean
definitions and proves or refutes the specification's claims about it.

Conventions of the embedding:
* MongoDB ObjectIds are `Nat`; year fields are stored as the `String`s
  the database holds; `parseInt` comparisons mirror JavaScript (a `NaN`
  operand makes every comparison false).
* `await generateJoinId()` call sites receive the produced code as an
  explicit argument (the issuer itself is embedded separately, with its
  random stream as a function argument).
* Store writes performed with a mongoose `session` are tagged; a failed
  save aborts the transaction, discarding the session writes while the
  unsessioned ones persist, exactly as in MongoDB.
* Store-level checks are modelled where the controller's inputs can
  trip them: document validation of the schema-required `joinId` on the
  mirror saves of `linkFamily`, and the unique indexes on
  `families.creatorJoinId` and `members.joinId` on the inserts of
  `createFamily` (whose code is caller-supplied). The other operations
  insert only issuer-generated codes and controller-validated fields,
  where those checks cannot fire.
-/

namespace FamLink

/-- JavaScript `a || b` on an optional string: `undefined` and `""` are falsy. -/
def jsOrStr (newVal oldVal : Option String) : Option String :=
  match newVal with
  | some s => if s = "" then oldVal else some s
  | none => oldVal

/-- JavaScript `a || b` where the stored field is a plain string. -/
def jsOrField (newVal : Option String) (old : String) : String :=
  match newVal with
  | some s => if s = "" then old else s
  | none => old

/-- JavaScript truthiness of an optional string. -/
def jsTruthy (s : Option String) : Bool :=
  match s with
  | none => false
  | some s => s ≠ ""

/-- Numeric value of a list of decimal digits. -/
def natOfDigits (cs : List Char) : Nat :=
  cs.foldl (fun n c => 10 * n + (c.toNat - 48)) 0

/-- JavaScript `parseInt` as used on year fields: parse the leading run of
digits, `NaN` (here `none`) when there is none or the field is absent.
All call sites receive strings already validated against `^\d{4}$`. -/
def jsParseInt (s : Option String) : Option Nat :=
  match s with
  | none => none
  | some s =>
    let ds := s.toList.takeWhile Char.isDigit
    if ds.isEmpty then none else some (natOfDigits ds)

/-- JavaScript `a <= b` on `parseInt` results: false when either is `NaN`. -/
def jsLe (a b : Option Nat) : Bool :=
  match a, b with
  | some x, some y => x ≤ y
  | _, _ => false

/-- JavaScript `a < b` on `parseInt` results: false when either is `NaN`. -/
def jsLt (a b : Option Nat) : Bool :=
  match a, b with
  | some x, some y => x < y
  | _, _ => false

/-- Four-digit year pattern `^\d{4}$` used by the Joi validators. -/
def isFourDigitYear (s : String) : Bool :=
  s.length = 4 && s.toList.all Char.isDigit

/-- A `families` document (the Family model is concatenated after the
user schema in src/models/User.js; the store keeps a unique index on
`creatorJoinId`). -/
structure FamilyRec where
  id : Nat
  name : String := ""
  creatorId : Nat
  creatorJoinId : String := ""
  isMainFamily : Bool := false
  currentStep : String := "initialized"
deriving DecidableEq

/-- A `familymembers` document (src/models/FamilyMember.js plus the
role fields written by the controllers and the migration script). -/
structure MemberRec where
  id : Nat
  familyId : Nat
  userId : Option Nat := none
  joinId : Option String := none
  joinIdUsed : Bool := false
  firstName : String := ""
  lastName : String := ""
  relationship : String := ""
  birthYear : Option String := none
  deathYear : Option String := none
  isDeceased : Bool := false
  isVerified : Bool := false
  isFamilyCreator : Bool := false
  isLinkedMember : Bool := false
  originalFamilyId : Option Nat := none
  linkedFrom : Option Nat := none
  linkedTo : Option Nat := none
  avatarUrl : Option String := none
  bio : Option String := none
  contactInfo : Option String := none
  socialLinks : Option String := none
  parentType : Option String := none
  isRootMember : Bool := false
  motherId : Option Nat := none
  branchId : Option Nat := none
  spouseOrder : Option Nat := none
  position : Nat := 0
deriving DecidableEq

/-- A `familybranches` document (the FamilyBranch model is concatenated
after the notification schema in unnamed/part_004). -/
structure BranchRec where
  id : Nat
  familyId : Nat
  motherId : Nat
  branchName : String := ""
  branchOrder : Nat
deriving DecidableEq

/-- A `linkedfamilies` document (src/models/LinkedFamilies.js). -/
structure LinkRec where
  id : Nat
  mainFamilyId : Nat
  linkedFamilyId : Nat
  linkedBy : Nat
  status : String := "active"
deriving DecidableEq

/-- A `familycreationflows` document (src/models/FamilyCreationFlow.js). -/
structure FlowRec where
  id : Nat
  userId : Nat
  familyId : Nat
  creationType : String := "own_family"
  setupCompleted : Bool := false
  currentStep : String := "initialized"
  parentsSetup : Bool := false
  childrenSetup : Bool := false
  branchesCreated : Bool := false
deriving DecidableEq

/-- The persistent store. -/
structure DB where
  families : List FamilyRec := []
  members : List MemberRec := []
  branches : List BranchRec := []
  links : List LinkRec := []
  flows : List FlowRec := []
deriving DecidableEq

/-- Lookup `FamilyMember.findByJoinId` (src/models/FamilyMember.js). -/
def findByJoinId (db : DB) (code : String) : Option MemberRec :=
  db.members.find? (fun m => m.joinId = some code)

/-- Lookup `FamilyMember.findById`. -/
def memberById (db : DB) (id : Nat) : Option MemberRec :=
  db.members.find? (fun m => m.id = id)

/-- Lookup `Family.findById`. -/
def familyById (db : DB) (id : Nat) : Option FamilyRec :=
  db.families.find? (fun f => f.id = id)

/-- Lookup `Family.findMainFamilyByUser` (the Family model,
concatenated after the user schema in src/models/User.js):
`findOne({ creatorId: userId, isMainFamily: true })`. -/
def findMainFamilyByUser (db : DB) (userId : Nat) : Option FamilyRec :=
  db.families.find? (fun f => f.creatorId = userId && f.isMainFamily)

/-- Predicate `LinkedFamilies.areFamiliesLinked` (src/models/LinkedFamilies.js). -/
def areFamiliesLinked (db : DB) (f1 f2 : Nat) : Bool :=
  db.links.any (fun l =>
    ((l.mainFamilyId = f1 && l.linkedFamilyId = f2) ||
     (l.mainFamilyId = f2 && l.linkedFamilyId = f1)) && l.status = "active")

/-- Outcome of a controller call: success, or an error response with
HTTP status, machine code and message, as built by the controllers. -/
inductive ApiOutcome where
  | ok
  | err (status : Nat) (code : String) (msg : String)
deriving DecidableEq

/-- Result of an operation: outcome plus the store afterwards. -/
structure OpResult where
  outcome : ApiOutcome
  db : DB
deriving DecidableEq

/-! ## Join-code issuer (src/utils/generateJoinId.js)

`Math.floor(Math.random() * characters.length)` yields an index in
`[0, 36)`; the random stream is the argument `rand`, consumed eight
indices per generated code. -/

/-- The 36-symbol alphabet of `generateJoinId`. -/
def alphabetChars : List Char :=
  "ABCDEFGHIJKLMNOPQRSTUVWXYZ0123456789".toList

/-- The code built by the `k`-th iteration (0-based) of the
`generateJoinId` loop: eight successive draws from the alphabet. -/
def drawCode (rand : Nat → Fin 36) (k : Nat) : String :=
  String.mk ((List.range 8).map (fun i => alphabetChars.getD (rand (8 * k + i)).val 'A'))

/-- One pass of the `do/while` loop of `generateJoinId`: generate the
`attempts`-th code, look it up, increment `attempts`, throw once the
incremented counter reaches `maxAttempts = 10`, otherwise retry while a
member already holds the code. `fuel` only bounds the recursion and is
called with `10 - attempts`, which the throw guard never lets reach 0. -/
def genAttempts (db : DB) (rand : Nat → Fin 36) : Nat → Nat → Except String String
  | _, 0 => .error "Unable to generate unique join ID"
  | attempts, fuel + 1 =>
    let joinId := drawCode rand attempts
    let existingMember := findByJoinId db joinId
    let attempts' := attempts + 1
    if attempts' ≥ 10 then .error "Unable to generate unique join ID"
    else
      match existingMember with
      | some _ => genAttempts db rand attempts' fuel
      | none => .ok joinId

/-- The issuer `generateJoinId` (src/utils/generateJoinId.js). -/
def generateJoinId (db : DB) (rand : Nat → Fin 36) : Except String String :=
  genAttempts db rand 0 10

/-! ## Family aggregate: createFamily (familyController.js) -/

/-- Operation `createFamily`. `genCode` stands for the `await generateJoinId()`
result used only when the caller supplies no `creatorJoinId`; `famId`
and `memId` are the ObjectIds minted for the new documents; `userFirst`
and `userLast` come from `User.findById(userId)`.

The controller performs no uniqueness check itself, but the store does:
`families` keeps a unique index on `creatorJoinId` (Family model) and
`familymembers` one on `joinId` (FamilyMember.js line 135). A
duplicate-key error on either insert is caught by the surrounding
try/catch and reported as a 500; the two inserts run OUTSIDE any
transaction, so when the second one fails the already-inserted Family
document persists. -/
def createFamily (db : DB) (userId : Nat) (name : String)
    (creatorJoinId : Option String) (genCode : String)
    (famId memId : Nat) (userFirst userLast : String) : OpResult :=
  match findMainFamilyByUser db userId with
  | some _ => ⟨.err 400 "CONFLICT" "User already has a main family", db⟩
  | none =>
    let finalCreatorJoinId := jsOrField creatorJoinId genCode
    if db.families.any (fun f => f.creatorJoinId = finalCreatorJoinId) then
      ⟨.err 500 "INTERNAL_ERROR" "Failed to create family", db⟩
    else
      let family : FamilyRec :=
        { id := famId, name := name, creatorId := userId,
          creatorJoinId := finalCreatorJoinId, isMainFamily := true }
      if db.members.any (fun m => m.joinId = some finalCreatorJoinId) then
        ⟨.err 500 "INTERNAL_ERROR" "Failed to create family",
         { db with families := db.families ++ [family] }⟩
      else
        let creatorMember : MemberRec :=
          { id := memId, familyId := famId, userId := some userId,
            joinId := some finalCreatorJoinId,
            firstName := userFirst, lastName := userLast,
            relationship := "Creator", isVerified := true,
            isFamilyCreator := true, position := 1 }
        ⟨.ok, { db with families := db.families ++ [family],
                        members := db.members ++ [creatorMember] }⟩

/-! ## Member ledger: add / update / re-issue (familyController.js) -/

/-- Request body of `POST /:familyId/members` after Joi validation
(`addFamilyMemberSchema` defaults `isDeceased` to a boolean). Absent
strings are `""` (falsy) to mirror the controller's truthiness checks. -/
structure AddMemberBody where
  firstName : String := ""
  lastName : String := ""
  relationship : String := ""
  birthYear : String := ""
  isDeceased : Bool := false
  deathYear : Option String := none
  motherId : Option Nat := none
  parentType : Option String := none
deriving DecidableEq

/-- The member document `addFamilyMember` creates once validation has
passed (lines 325-341 of the controller). -/
def builtMember (familyId newMemberId : Nat) (body : AddMemberBody)
    (joinId : String) (finalParentType : String) (isRootMember : Bool)
    (branchId : Option Nat) : MemberRec :=
  { id := newMemberId, familyId := familyId,
    firstName := body.firstName, lastName := body.lastName,
    relationship := body.relationship,
    birthYear := some body.birthYear,
    isDeceased := body.isDeceased,
    deathYear := if body.isDeceased then body.deathYear else none,
    joinId := some joinId, isVerified := false, isFamilyCreator := false,
    avatarUrl := none, parentType := some finalParentType,
    isRootMember := isRootMember,
    motherId := if finalParentType = "child" then body.motherId else none,
    branchId := branchId }

/-- Request body of `PUT /:familyId/members/:memberId` (all fields
optional; `updateFamilyMemberSchema`). -/
structure UpdateBody where
  firstName : Option String := none
  lastName : Option String := none
  relationship : Option String := none
  birthYear : Option String := none
  isDeceased : Option Bool := none
  deathYear : Option String := none
deriving DecidableEq

/-- Validator `updateFamilyMemberSchema` (src/validators/familyValidators.js):
`deathYear` matches `^\d{4}$` and is required when `isDeceased` is
`true`, forbidden otherwise. -/
def updateBodyValid (b : UpdateBody) : Bool :=
  match b.isDeceased with
  | some true =>
    match b.deathYear with
    | some y => isFourDigitYear y
    | none => false
  | _ => b.deathYear.isNone

/-- The field merge of `updateFamilyMember` (lines 432-437): `||` keeps
the old value for falsy input, `isDeceased` is replaced only when the
body carries it. -/
def applyUpdate (m : MemberRec) (b : UpdateBody) : MemberRec :=
  { m with
    firstName := jsOrField b.firstName m.firstName,
    lastName := jsOrField b.lastName m.lastName,
    relationship := jsOrField b.relationship m.relationship,
    birthYear := jsOrStr b.birthYear m.birthYear,
    isDeceased := b.isDeceased.getD m.isDeceased,
    deathYear := jsOrStr b.deathYear m.deathYear }

/-- Operation `updateFamilyMember`. -/
def updateFamilyMember (db : DB) (familyId memberId : Nat) (body : UpdateBody)
    (userId : Nat) : OpResult :=
  match familyById db familyId with
  | none => ⟨.err 404 "NOT_FOUND" "Family not found", db⟩
  | some family =>
    if family.creatorId ≠ userId then
      ⟨.err 403 "AUTHORIZATION_ERROR" "Only family creator can update members", db⟩
    else
      match memberById db memberId with
      | none => ⟨.err 404 "NOT_FOUND" "Family member not found", db⟩
      | some member =>
        if member.familyId ≠ familyId then
          ⟨.err 404 "NOT_FOUND" "Family member not found", db⟩
        else
          ⟨.ok, { db with members := db.members.map (fun m =>
            if m.id = memberId then applyUpdate m body else m) }⟩

/-- Operation `generateMemberJoinId` (`POST /:familyId/join-ids`): re-issues a
member's code and resets `joinIdUsed` to `false`. `newCode` is the
`await generateJoinId()` result. -/
def generateMemberJoinId (db : DB) (familyId memberId userId : Nat)
    (newCode : String) : OpResult :=
  match familyById db familyId with
  | none => ⟨.err 404 "NOT_FOUND" "Family not found", db⟩
  | some family =>
    if family.creatorId ≠ userId then
      ⟨.err 403 "AUTHORIZATION_ERROR" "Only family creator can generate join IDs", db⟩
    else
      match memberById db memberId with
      | none => ⟨.err 404 "NOT_FOUND" "Family member not found", db⟩
      | some member =>
        if member.familyId ≠ familyId then
          ⟨.err 404 "NOT_FOUND" "Family member not found", db⟩
        else
          ⟨.ok, { db with members := db.members.map (fun m =>
            if m.id = memberId then
              { m with joinId := some newCode, joinIdUsed := false }
            else m) }⟩

/-! ## Creation-flow tracker: setupParents (familyController.js) -/

/-- getOrdinalSuffix helper of the controller. -/
def getOrdinalSuffix (num : Nat) : String :=
  let j := num % 10
  let k := num % 100
  if j = 1 && k ≠ 11 then "st"
  else if j = 2 && k ≠ 12 then "nd"
  else if j = 3 && k ≠ 13 then "rd"
  else "th"

/-- Branch naming of `setupParents`. -/
def branchNameFor (spouseOrder : Nat) : String :=
  if spouseOrder = 1 then "First Wife\x27s Branch"
  else toString spouseOrder ++ getOrdinalSuffix spouseOrder ++ " Wife\x27s Branch"

/-- Father payload of `POST /:familyId/setup-parents`. -/
structure ParentInput where
  firstName : String := ""
  lastName : String := ""
  birthYear : String := ""
  isDeceased : Bool := false
  deathYear : Option String := none
deriving DecidableEq

/-- Mother payload: a parent plus her `spouseOrder`. -/
structure MotherInput where
  firstName : String := ""
  lastName : String := ""
  birthYear : String := ""
  isDeceased : Bool := false
  deathYear : Option String := none
  spouseOrder : Nat
deriving DecidableEq

/-- The spouse-order validation of `setupParents`: sort the supplied
orders ascending (`.sort((a, b) => a - b)`; on a list of naturals every
comparison-correct sort returns the same ascending list, modelled here
by insertion sort) and require `order === index + 1` at every index. -/
def spouseSeqOk (orders : List Nat) : Bool :=
  ((orders.insertionSort (fun a b => a ≤ b)).enum).all (fun p => p.2 = p.1 + 1)

/-- The mother member created for `motherData` by `setupParents`. -/
def motherMemberOf (familyId : Nat) (motherData : MotherInput)
    (memberId : Nat) (code : String) (branchId : Nat) : MemberRec :=
  { id := memberId, familyId := familyId,
    firstName := motherData.firstName, lastName := motherData.lastName,
    birthYear := some motherData.birthYear,
    isDeceased := motherData.isDeceased, deathYear := motherData.deathYear,
    relationship := "Wife " ++ toString motherData.spouseOrder,
    parentType := some "mother", isRootMember := true,
    spouseOrder := some motherData.spouseOrder, isVerified := true,
    joinId := some code, position := 2 + motherData.spouseOrder,
    branchId := some branchId }

/-- The branch created for `motherData` by `setupParents`. -/
def branchOf (familyId : Nat) (motherData : MotherInput)
    (branchId motherId : Nat) : BranchRec :=
  { id := branchId, familyId := familyId, motherId := motherId,
    branchName := branchNameFor motherData.spouseOrder,
    branchOrder := motherData.spouseOrder }

/-- The per-mother creation loop of `setupParents`: each iteration
creates the mother member, her branch, and stamps the branch id onto
the mother (the model creates the member already stamped; the source
saves then updates inside the same loop body). Ids are minted as
`baseId + 2k` for the `k`-th mother and `baseId + 2k + 1` for her
branch; her join code is `codes (1 + k)`. -/
def mothersLoop (familyId : Nat) (codes : Nat → String) :
    List MotherInput → Nat → Nat → List MemberRec × List BranchRec
  | [], _, _ => ([], [])
  | motherData :: rest, k, baseId =>
    let memberId := baseId + 2 * k
    let branchId := baseId + 2 * k + 1
    let (ms, bs) := mothersLoop familyId codes rest (k + 1) baseId
    (motherMemberOf familyId motherData memberId (codes (1 + k)) branchId :: ms,
     branchOf familyId motherData branchId memberId :: bs)

/-- The `pre('save')` recomputation of a creation flow's `currentStep`
from its completed-step booleans (src/models/FamilyCreationFlow.js). -/
def recomputeFlow (f : FlowRec) : FlowRec :=
  let completedSteps :=
    (if f.parentsSetup then 1 else 0) + (if f.childrenSetup then 1 else 0) +
    (if f.branchesCreated then 1 else 0)
  if completedSteps = 0 then { f with currentStep := "initialized" }
  else if completedSteps = 1 then { f with currentStep := "parent_setup" }
  else if completedSteps = 2 then { f with currentStep := "children_setup" }
  else { f with currentStep := "completed", setupCompleted := true }

/-- Operation `setupParents`. `codes k` is the `k`-th `await generateJoinId()`
result (0 for the father, `1 + k` for the `k`-th mother); `fatherId`
is the father's minted ObjectId and `baseId` the base for the
mother/branch ids. -/
def setupParents (db : DB) (familyId : Nat) (father : ParentInput)
    (mothers : List MotherInput) (userId : Nat) (codes : Nat → String)
    (fatherId baseId : Nat) : OpResult :=
  match familyById db familyId with
  | none => ⟨.err 403 "AUTHORIZATION_ERROR" "You can only setup parents for your own family", db⟩
  | some family =>
    if family.creatorId ≠ userId then
      ⟨.err 403 "AUTHORIZATION_ERROR" "You can only setup parents for your own family", db⟩
    else
      let fatherBirthYear := jsParseInt (some father.birthYear)
      let motherBirthYears := mothers.map (fun m => jsParseInt (some m.birthYear))
      if motherBirthYears.any (fun year => jsLt year fatherBirthYear) then
        ⟨.err 400 "VALIDATION_ERROR" "Father must be older than all mothers", db⟩
      else if !(spouseSeqOk (mothers.map (fun m => m.spouseOrder))) then
        ⟨.err 400 "VALIDATION_ERROR" "Spouse order must be sequential starting from 1", db⟩
      else
        let fatherMember : MemberRec :=
          { id := fatherId, familyId := familyId,
            firstName := father.firstName, lastName := father.lastName,
            birthYear := some father.birthYear,
            isDeceased := father.isDeceased, deathYear := father.deathYear,
            relationship := "Father", parentType := some "father",
            isRootMember := true, isVerified := true,
            joinId := some (codes 0), position := 1 }
        let (createdMothers, createdBranches) := mothersLoop familyId codes mothers 0 baseId
        ⟨.ok, { db with
          members := db.members ++ fatherMember :: createdMothers,
          branches := db.branches ++ createdBranches,
          families := db.families.map (fun f =>
            if f.id = familyId then { f with currentStep := "parent_setup" } else f),
          flows := db.flows.map (fun f =>
            if f.familyId = familyId then recomputeFlow { f with parentsSetup := true } else f) }⟩

/-! ## Linkage engine: linkFamily (familyController.js)

The controller opens a mongoose session and transaction, then performs:
`member.markJoinIdAsUsed()` and `LinkedFamilies.createLink(...)`
WITHOUT the session, and every mirror save / back-reference update
WITH `{ session }`. A thrown error aborts the transaction: session
writes are discarded, unsessioned writes persist. The model builds the
ordered write list, each write tagged with whether it used the session,
and runs it with mongoose document validation at each save: in
particular a new member document saved without the schema-required
`joinId` (FamilyMember.js line 16) fails, which aborts the
transaction. -/

/-- One store write of the `linkFamily` transaction body. -/
inductive LinkWrite where
  | markUsed (memberId : Nat)
  | addLink (rec : LinkRec)
  | addMember (rec : MemberRec)
  | setLinkedTo (memberId target : Nat)
deriving DecidableEq

/-- Apply one write to the store. -/
def applyWrite (db : DB) : LinkWrite → DB
  | .markUsed mid =>
    { db with members := db.members.map (fun m =>
        if m.id = mid then { m with joinIdUsed := true } else m) }
  | .addLink r => { db with links := db.links ++ [r] }
  | .addMember r => { db with members := db.members ++ [r] }
  | .setLinkedTo mid target =>
    { db with members := db.members.map (fun m =>
        if m.id = mid then { m with linkedTo := some target } else m) }

/-- The mirror document built for a source member: display fields are
copied, `isLinkedMember` and the weak references are set, and the
structural fields (`joinId`, `parentType`, `motherId`, `branchId`,
`spouseOrder`) are NOT copied, exactly as in the controller. Note the
document carries NO `joinId` although the schema requires one, so
saving it fails validation (see `writeOk`). -/
def mirrorOf (src : MemberRec) (destFamily origFamily newId : Nat) : MemberRec :=
  { id := newId, familyId := destFamily,
    firstName := src.firstName, lastName := src.lastName,
    relationship := src.relationship,
    birthYear := src.birthYear, deathYear := src.deathYear,
    isDeceased := src.isDeceased, isVerified := src.isVerified,
    isFamilyCreator := false, isLinkedMember := true,
    originalFamilyId := some origFamily, linkedFrom := some src.id,
    avatarUrl := src.avatarUrl, bio := src.bio,
    contactInfo := src.contactInfo, socialLinks := src.socialLinks }

/-- One mirror loop of `linkFamily`: for each source member whose id is
not `skipId`, save a mirror in `destFamily` (session write) and set the
source's `linkedTo` back-reference (session write). `nextId` is the
next minted ObjectId. -/
def mirrorLoop (skipId destFamily origFamily : Nat) :
    List MemberRec → Nat → List (Bool × LinkWrite)
  | [], _ => []
  | src :: rest, nextId =>
    if src.id = skipId then mirrorLoop skipId destFamily origFamily rest nextId
    else
      (true, .addMember (mirrorOf src destFamily origFamily nextId)) ::
      (true, .setLinkedTo src.id nextId) ::
      mirrorLoop skipId destFamily origFamily rest (nextId + 1)

/-- Mongoose document validation at save time for the writes of this
transaction: a NEW member document must carry the schema-required
`joinId` (and the required name/relationship strings) per
src/models/FamilyMember.js; the mirror documents never set a `joinId`,
so their saves fail. Flag updates of already-persisted documents and
the LinkedFamilies insert pass. -/
def writeOk : LinkWrite → Bool
  | .addMember r => r.joinId.isSome && r.firstName ≠ "" && r.lastName ≠ "" &&
      r.relationship ≠ ""
  | _ => true

/-- Run the tagged write list: writes execute in order and each save is
validated. If all pass, the transaction commits and every write
applies. If one fails, the thrown error aborts the transaction
(`session.abortTransaction()`): the session writes already performed
are discarded and only the unsessioned ones persist. Returns the
resulting store and whether the transaction committed. -/
def runTxn (db : DB) (writes : List (Bool × LinkWrite)) : DB × Bool :=
  match writes.findIdx? (fun w => !(writeOk w.2)) with
  | none => (writes.foldl (fun d w => applyWrite d w.2) db, true)
  | some k =>
    ((writes.take k).foldl (fun d w => if w.1 then d else applyWrite d w.2) db, false)

/-- The ordered, session-tagged write list of the `linkFamily`
transaction body: mark the anchor's code used (no session), insert the
LinkedFamilies document (no session), then the two mirror loops (all
session writes). -/
def linkWrites (db : DB) (member : MemberRec)
    (userMainFamilyId linkedFamilyId userId newLinkId firstNewMemberId : Nat) :
    List (Bool × LinkWrite) :=
  let linkedFamilyMembers := db.members.filter (fun m => m.familyId = linkedFamilyId)
  let userFamilyMembers := db.members.filter (fun m => m.familyId = userMainFamilyId)
  let mirrorsIn := (linkedFamilyMembers.filter (fun m => m.id ≠ member.id)).length
  (false, .markUsed member.id) ::
  (false, .addLink { id := newLinkId, mainFamilyId := userMainFamilyId,
                     linkedFamilyId := linkedFamilyId, linkedBy := userId }) ::
  mirrorLoop member.id userMainFamilyId linkedFamilyId
    linkedFamilyMembers firstNewMemberId ++
  mirrorLoop member.id linkedFamilyId userMainFamilyId
    userFamilyMembers (firstNewMemberId + mirrorsIn)

/-- The mirror documents a write list plans to insert into `familyId`. -/
def plannedMirrorsInto (writes : List (Bool × LinkWrite)) (familyId : Nat) :
    List MemberRec :=
  writes.filterMap (fun w =>
    match w.2 with
    | .addMember r => if r.familyId = familyId then some r else none
    | _ => none)

/-- Operation `linkFamily` (`POST /families/link`). `newLinkId` is the ObjectId of
the LinkedFamilies document, `firstNewMemberId` the first of the
consecutively minted mirror ids. -/
def linkFamily (db : DB) (joinId : String) (userId newLinkId firstNewMemberId : Nat) :
    OpResult :=
  match findByJoinId db joinId with
  | none => ⟨.err 404 "NOT_FOUND" "Invalid join ID", db⟩
  | some member =>
    if member.joinIdUsed then
      ⟨.err 400 "CONFLICT" "Join ID has already been used", db⟩
    else if !member.isFamilyCreator then
      ⟨.err 400 "AUTHORIZATION_ERROR" "Join ID must belong to a family creator", db⟩
    else
      match familyById db member.familyId with
      | none => ⟨.err 404 "NOT_FOUND" "Family not found", db⟩
      | some linkedFamily =>
        match findMainFamilyByUser db userId with
        | none => ⟨.err 404 "NOT_FOUND" "You must have a main family to link with others", db⟩
        | some userMainFamily =>
          if linkedFamily.id = userMainFamily.id then
            ⟨.err 400 "CONFLICT" "Cannot link to your own family", db⟩
          else if areFamiliesLinked db userMainFamily.id linkedFamily.id then
            ⟨.err 400 "CONFLICT" "Families are already linked", db⟩
          else
            let writes := linkWrites db member userMainFamily.id linkedFamily.id
              userId newLinkId firstNewMemberId
            let result := runTxn db writes
            if result.2 then ⟨.ok, result.1⟩
            else ⟨.err 500 "INTERNAL_ERROR" "Failed to link family", result.1⟩

/-! ## Concrete fixtures used by the claim theorems -/

/-- Family T (id 1, creator user 101) with creator member `m1`
(id 11, join code "CODEAAAA") and a child member (id 12). -/
def famT : FamilyRec := { id := 1, name := "T", creatorId := 101, isMainFamily := true }

/-- Creator member of family T. -/
def m1 : MemberRec :=
  { id := 11, familyId := 1, userId := some 101, joinId := some "CODEAAAA",
    firstName := "Tom", lastName := "Tutu", relationship := "Creator",
    birthYear := some "1950", isVerified := true, isFamilyCreator := true,
    position := 1 }

/-- A further (non-creator) member of family T. -/
def mT2 : MemberRec :=
  { id := 12, familyId := 1, joinId := some "CODEDDDD",
    firstName := "Tess", lastName := "Tutu", relationship := "Daughter",
    birthYear := some "1980", position := 2 }

/-- Family A (id 2, creator user 102) with creator member `mA` and a
second member `mA2`. -/
def famA : FamilyRec := { id := 2, name := "A", creatorId := 102, isMainFamily := true }

/-- Creator member of family A. -/
def mA : MemberRec :=
  { id := 21, familyId := 2, userId := some 102, joinId := some "CODEBBBB",
    firstName := "Ann", lastName := "Abe", relationship := "Creator",
    birthYear := some "1960", isVerified := true, isFamilyCreator := true,
    position := 1 }

/-- A further (non-creator) member of family A. -/
def mA2 : MemberRec :=
  { id := 22, familyId := 2, joinId := some "CODEEEEE",
    firstName := "Al", lastName := "Abe", relationship := "Son",
    birthYear := some "1985", position := 2 }

/-- Family B (id 3, creator user 103) with creator member `mB`. -/
def famB : FamilyRec := { id := 3, name := "B", creatorId := 103, isMainFamily := true }

/-- Creator member of family B. -/
def mB : MemberRec :=
  { id := 31, familyId := 3, userId := some 103, joinId := some "CODECCCC",
    firstName := "Bob", lastName := "Bix", relationship := "Creator",
    birthYear := some "1955", isVerified := true, isFamilyCreator := true,
    position := 1 }

/-- Store with the three families above. -/
def db3 : DB :=
  { families := [famT, famA, famB], members := [m1, mT2, mA, mA2, mB] }

/-! ## C1: atomicity of the linkFamilies unit of work -/

/-- C1. The claim says a failure during steps (a)-(e) leaves the
persistent state unchanged. The code violates it: in `db3` all five
preconditions pass, and the transaction then fails of its own accord at
the first mirror save (write index 2 — the mirror document lacks the
schema-required `joinId`), after `markJoinIdAsUsed` and `createLink`
have already executed. The abort rolls back only the session writes:
afterwards the anchoring member's `joinIdUsed` is `true` and an active
LinkedFamilies document for the pair exists, because those two writes
never joined the session; no mirror member was persisted. -/
theorem linkFamily_partial_failure_keeps_consumed_mark_and_link :
    (memberById db3 11).map (fun m => m.joinIdUsed) = some false ∧
    areFamiliesLinked db3 2 1 = false ∧
    (linkFamily db3 "CODEAAAA" 102 900 1000).outcome =
      .err 500 "INTERNAL_ERROR" "Failed to link family" ∧
    (memberById (linkFamily db3 "CODEAAAA" 102 900 1000).db 11).map
      (fun m => m.joinIdUsed) = some true ∧
    areFamiliesLinked (linkFamily db3 "CODEAAAA" 102 900 1000).db 2 1 = true ∧
    ((linkFamily db3 "CODEAAAA" 102 900 1000).db.members.filter
      (fun m => m.isLinkedMember)).length = 0 ∧
    (linkFamily db3 "CODEAAAA" 102 900 1000).db.members.length =
      db3.members.length := by
  decide

/-! ## C2: mirror creation of the merge -/

/-- C2. The claim describes the post-state of a successful merge of
caller family A (2 members) into target family T (2 members, anchor
`m1`). On `db3` the code diverges twice. First, the transaction PLANS
the wrong mirrors: the caller-side direction is as claimed
(`|T| - 1 = 1` mirror into family A), but into the target family it
plans `|A| = 2` mirrors, not `|A| - 1 = 1` — the second loop compares
every caller member against the TARGET anchor's id, which matches
nobody, so the caller's own creator (`linkedFrom = 21`) is mirrored
too, against the loop's own comment. Second, none of this can ever
commit: every planned mirror document lacks the schema-required
`joinId`, so the first mirror save throws, the transaction aborts and
the call returns 500 with no mirror persisted — the claimed successful
merge is unreachable whenever any member needs mirroring. -/
theorem linkFamily_mirror_plan_and_abort :
    findByJoinId db3 "CODEAAAA" = some m1 ∧
    findMainFamilyByUser db3 102 = some famA ∧
    (db3.members.filter (fun m => m.familyId = 1)).length = 2 ∧
    (db3.members.filter (fun m => m.familyId = 2)).length = 2 ∧
    (plannedMirrorsInto (linkWrites db3 m1 2 1 102 900 1000) 2).length = 1 ∧
    (plannedMirrorsInto (linkWrites db3 m1 2 1 102 900 1000) 1).length = 2 ∧
    ((plannedMirrorsInto (linkWrites db3 m1 2 1 102 900 1000) 1).filter
      (fun r => r.linkedFrom = some 21)).length = 1 ∧
    (plannedMirrorsInto (linkWrites db3 m1 2 1 102 900 1000) 1 ++
      plannedMirrorsInto (linkWrites db3 m1 2 1 102 900 1000) 2).all
      (fun r => r.joinId.isNone) = true ∧
    (linkFamily db3 "CODEAAAA" 102 900 1000).outcome =
      .err 500 "INTERNAL_ERROR" "Failed to link family" ∧
    ((linkFamily db3 "CODEAAAA" 102 900 1000).db.members.filter
      (fun m => m.isLinkedMember)).length = 0 := by
  decide

/-! ## C3: which join codes are eligible to anchor a merge -/

/-- Main family of user 104 holding no member documents, as
`initializeFamilyCreation` produces them (it inserts the Family and the
creation flow but no creator member). -/
def famZ : FamilyRec := { id := 4, name := "Z", creatorId := 104, isMainFamily := true }

/-- Store for the C3 counterexample: target family T contains only its
creator `m1`, and the caller's main family Z has no members, so the
mirror loops are empty and the transaction can commit. -/
def dbZ : DB := { families := [famT, famZ], members := [m1] }

/-- C3 counterexample. The claim says `linkFamilies` proceeds past its
eligibility precondition only when the code's owner has a root-member
role (Father/Mother). In `dbZ` the code "CODEAAAA" belongs to `m1`,
whose role is the generic Creator record (`isRootMember = false`, no
`parentType`), yet the call proceeds past eligibility and fully
succeeds, creating the relation: the gate actually tests
`isFamilyCreator`. -/
theorem linkFamily_nonroot_creator_code_succeeds :
    (findByJoinId dbZ "CODEAAAA").map (fun m => m.isRootMember) = some false ∧
    (findByJoinId dbZ "CODEAAAA").map (fun m => m.parentType) = some none ∧
    (linkFamily dbZ "CODEAAAA" 104 910 1400).outcome = .ok ∧
    areFamiliesLinked (linkFamily dbZ "CODEAAAA" 104 910 1400).db 4 1 = true := by
  decide

/-- C3 as amended: the eligibility gate is `isFamilyCreator`, not the
root-member role. Whenever the member owning the (unconsumed) code is
not its family's creator record, the call fails with the authorization
error and mutates nothing; root membership plays no part. -/
theorem linkFamily_eligibility_is_family_creator
    (db : DB) (joinId : String) (userId newLinkId firstNewMemberId : Nat)
    (m : MemberRec)
    (hfind : findByJoinId db joinId = some m)
    (hunused : m.joinIdUsed = false)
    (hnotcreator : m.isFamilyCreator = false) :
    linkFamily db joinId userId newLinkId firstNewMemberId =
      ⟨.err 400 "AUTHORIZATION_ERROR" "Join ID must belong to a family creator", db⟩ := by
  simp [linkFamily, hfind, hunused, hnotcreator]

/-- Witness for the amended C3: the non-creator member `mT2` of family
T holds the unconsumed code "CODEDDDD"; a link attempt with it is
rejected with the authorization error and leaves the store unchanged. -/
theorem linkFamily_eligibility_is_family_creator_witness :
    findByJoinId db3 "CODEDDDD" = some mT2 ∧ mT2.joinIdUsed = false ∧
    mT2.isFamilyCreator = false ∧
    linkFamily db3 "CODEDDDD" 102 900 1000 =
      ⟨.err 400 "AUTHORIZATION_ERROR" "Join ID must belong to a family creator", db3⟩ :=
  ⟨by decide, by decide, by decide,
   linkFamily_eligibility_is_family_creator db3 "CODEDDDD" 102 900 1000 mT2
     (by decide) (by decide) (by decide)⟩

/-! ## C4: single use of a join code over time

Trace used by the counterexample, built from calls that commit in the
source (the caller families have no member documents — the state
`initializeFamilyCreation` leaves — and each target family contains
only its anchor, so the mirror loops are empty and no unsaveable
mirror document is ever built): link T into Y via "CODEAAAA"
(consumes it), re-issue `m1`'s code as "CODE2222" (which frees
"CODEAAAA" and resets the flag), link T into V via "CODE2222" (so `m1`,
the member that HELD "CODEAAAA", again has `joinIdUsed = true`), then
re-issue family W's creator code as "CODEAAAA" — legitimate, since no
member holds it at that point — and link W into V with "CODEAAAA". -/

/-- Main family of user 102 with no member documents. -/
def famY : FamilyRec := { id := 2, name := "Y", creatorId := 102, isMainFamily := true }

/-- Main family of user 103 with no member documents. -/
def famV : FamilyRec := { id := 3, name := "V", creatorId := 103, isMainFamily := true }

/-- Main family of user 104 whose only member is its creator `mW`. -/
def famW : FamilyRec := { id := 4, name := "W", creatorId := 104, isMainFamily := true }

/-- Creator member of family W. -/
def mW : MemberRec :=
  { id := 41, familyId := 4, userId := some 104, joinId := some "CODEWWWW",
    firstName := "Wes", lastName := "Way", relationship := "Creator",
    isVerified := true, isFamilyCreator := true, position := 1 }

/-- Initial store of the C4 trace. -/
def dbT : DB := { families := [famT, famY, famV, famW], members := [m1, mW] }

/-- Store after the first link (via "CODEAAAA"). -/
def c4S1 : DB := (linkFamily dbT "CODEAAAA" 102 900 1000).db

/-- Store after re-issuing `m1`'s join code as "CODE2222". -/
def c4S2 : DB := (generateMemberJoinId c4S1 1 11 101 "CODE2222").db

/-- Store after the second link (via "CODE2222"). -/
def c4S3 : DB := (linkFamily c4S2 "CODE2222" 103 901 1100).db

/-- Store after re-issuing `mW`'s join code as the freed "CODEAAAA". -/
def c4S4 : DB := (generateMemberJoinId c4S3 4 41 104 "CODEAAAA").db

/-- C4 counterexample. In the final store `m1` — the member that held
"CODEAAAA" — has `joinIdUsed = true`, yet `linkFamilies("CODEAAAA", u103)`
does not fail with JoinCodeAlreadyUsed: the code was freed by
re-issuance (the conjunct on `c4S3` shows no member held it, so the
issuer could hand it out again), re-assigned to `mW`, and the call
succeeds, creating a further LinkedFamilyRelation via that code. -/
theorem linkFamily_consumed_code_relink_after_reissue :
    findByJoinId dbT "CODEAAAA" = some m1 ∧
    (linkFamily dbT "CODEAAAA" 102 900 1000).outcome = .ok ∧
    (linkFamily c4S2 "CODE2222" 103 901 1100).outcome = .ok ∧
    findByJoinId c4S3 "CODEAAAA" = none ∧
    (memberById c4S4 11).map (fun m => m.joinIdUsed) = some true ∧
    (linkFamily c4S4 "CODEAAAA" 103 902 1200).outcome = .ok ∧
    areFamiliesLinked c4S4 3 4 = false ∧
    areFamiliesLinked (linkFamily c4S4 "CODEAAAA" 103 902 1200).db 3 4 = true ∧
    (linkFamily c4S4 "CODEAAAA" 103 902 1200).db.links.length =
      c4S4.links.length + 1 := by
  decide

/-- C4 as amended: the single-use guard protects the code as long as it
stays attached to the consuming member. Whenever the member CURRENTLY
holding code `c` has `joinIdUsed = true`, `linkFamilies(c, caller)`
fails with JoinCodeAlreadyUsed and performs no merge (the store is
returned unchanged). Re-issuance detaches the code and voids the
guarantee for the detached code, as the counterexample shows. -/
theorem linkFamily_consumed_current_code_rejected
    (db : DB) (joinId : String) (userId newLinkId firstNewMemberId : Nat)
    (m : MemberRec)
    (hfind : findByJoinId db joinId = some m)
    (hused : m.joinIdUsed = true) :
    linkFamily db joinId userId newLinkId firstNewMemberId =
      ⟨.err 400 "CONFLICT" "Join ID has already been used", db⟩ := by
  simp [linkFamily, hfind, hused]

/-- Witness for the amended C4: immediately after the first link,
"CODEAAAA" is still held by `m1` with the consumed flag set; a retry
fails with the conflict error and changes nothing. -/
theorem linkFamily_consumed_current_code_rejected_witness :
    findByJoinId c4S1 "CODEAAAA" = some { m1 with joinIdUsed := true } ∧
    linkFamily c4S1 "CODEAAAA" 103 903 1300 =
      ⟨.err 400 "CONFLICT" "Join ID has already been used", c4S1⟩ :=
  ⟨by decide,
   linkFamily_consumed_current_code_rejected c4S1 "CODEAAAA" 103 903 1300
     { m1 with joinIdUsed := true } (by decide) (by decide)⟩

/-! ## C5: bounded retry of the join-code issuer -/

/-- The alphabet list has the 36 symbols the spec names. -/
theorem alphabetChars_length : alphabetChars.length = 36 := by decide

/-- Every drawn character is a valid index into the alphabet. -/
theorem alpha_getD_mem (v : Fin 36) : alphabetChars.getD v.val 'A' ∈ alphabetChars := by
  have h : v.val < alphabetChars.length := by
    rw [alphabetChars_length]; exact v.isLt
  rw [List.getD_eq_getElem _ _ h]
  exact List.getElem_mem h

/-- A generated code has exactly 8 characters. -/
theorem drawCode_length (rand : Nat → Fin 36) (k : Nat) :
    (drawCode rand k).length = 8 := rfl

/-- Every character of a generated code comes from the 36-symbol alphabet. -/
theorem drawCode_chars (rand : Nat → Fin 36) (k : Nat) :
    ∀ ch ∈ (drawCode rand k).toList, ch ∈ alphabetChars := by
  intro ch hch
  have hch2 : ch ∈ (List.range 8).map
      (fun i => alphabetChars.getD (rand (8 * k + i)).val 'A') := hch
  obtain ⟨i, _, rfl⟩ := List.mem_map.mp hch2
  exact alpha_getD_mem _

/-- If the retry loop returns a code, that code is fresh and was drawn
by one of the iterations 0..8: the guard `attempts >= maxAttempts`
fires after the increment, so iteration 9 (the 10th) can never return. -/
theorem genAttempts_ok_spec (db : DB) (rand : Nat → Fin 36) :
    ∀ fuel attempts c, genAttempts db rand attempts fuel = .ok c →
      findByJoinId db c = none ∧ ∃ k, attempts ≤ k ∧ k + 1 < 10 ∧ c = drawCode rand k := by
  intro fuel
  induction fuel with
  | zero => intro attempts c h; simp [genAttempts] at h
  | succ n ih =>
    intro attempts c h
    rw [genAttempts] at h
    by_cases h10 : attempts + 1 ≥ 10
    · simp [h10] at h
    · simp only [h10, if_false] at h
      cases hf : findByJoinId db (drawCode rand attempts) with
      | some m =>
        rw [hf] at h
        obtain ⟨hc, k, hk1, hk2, hk3⟩ := ih (attempts + 1) c h
        exact ⟨hc, k, by omega, hk2, hk3⟩
      | none =>
        rw [hf] at h
        cases h
        exact ⟨hf, attempts, le_refl _, by omega, rfl⟩

/-- If every one of the draws 0..8 collides with an existing member,
the loop fails — regardless of what draw 9 would have produced. -/
theorem genAttempts_err_spec (db : DB) (rand : Nat → Fin 36) :
    ∀ fuel attempts,
      (∀ k, attempts ≤ k → k < 9 → (findByJoinId db (drawCode rand k)).isSome = true) →
      genAttempts db rand attempts fuel = .error "Unable to generate unique join ID" := by
  intro fuel
  induction fuel with
  | zero => intro attempts _; rw [genAttempts]
  | succ n ih =>
    intro attempts hcoll
    rw [genAttempts]
    by_cases h10 : attempts + 1 ≥ 10
    · simp [h10]
    · have hlt : attempts < 9 := by omega
      have := hcoll attempts (le_refl _) hlt
      cases hf : findByJoinId db (drawCode rand attempts) with
      | none => rw [hf] at this; simp at this
      | some m =>
        simp only [h10, if_false, hf]
        exact ih (attempts + 1) (fun k hk1 hk2 => hcoll k (by omega) hk2)

/-- C5 as amended. The issuer returns only codes drawn in iterations
0..8 (at most NINE effective attempts, not ten): a returned code is
8 characters over the 36-symbol alphabet and collides with no existing
member; and whenever the first nine draws all collide the issuer fails
with the exhaustion error, even if the tenth draw would have been
fresh. -/
theorem generateJoinId_spec (db : DB) (rand : Nat → Fin 36) :
    (∀ c, generateJoinId db rand = .ok c →
      findByJoinId db c = none ∧ c.length = 8 ∧
      (∀ ch ∈ c.toList, ch ∈ alphabetChars) ∧ ∃ k, k < 9 ∧ c = drawCode rand k) ∧
    ((∀ k, k < 9 → (findByJoinId db (drawCode rand k)).isSome = true) →
      generateJoinId db rand = .error "Unable to generate unique join ID") := by
  constructor
  · intro c h
    obtain ⟨hc, k, _, hk2, hk3⟩ := genAttempts_ok_spec db rand 10 0 c h
    subst hk3
    exact ⟨hc, drawCode_length rand k, drawCode_chars rand k, k, by omega, rfl⟩
  · intro hcoll
    exact genAttempts_err_spec db rand 10 0 (fun k _ hk => hcoll k hk)

/-- The deterministic stream whose iteration `k` draws the code of
eight copies of alphabet symbol `k`. -/
def rand36 : Nat → Fin 36 := fun n => ⟨n / 8 % 36, Nat.mod_lt _ (by omega)⟩

/-- Nine members already holding the codes of iterations 0..8. -/
def db9 : DB :=
  { members :=
      [ { id := 1, familyId := 1, joinId := some "AAAAAAAA" },
        { id := 2, familyId := 1, joinId := some "BBBBBBBB" },
        { id := 3, familyId := 1, joinId := some "CCCCCCCC" },
        { id := 4, familyId := 1, joinId := some "DDDDDDDD" },
        { id := 5, familyId := 1, joinId := some "EEEEEEEE" },
        { id := 6, familyId := 1, joinId := some "FFFFFFFF" },
        { id := 7, familyId := 1, joinId := some "GGGGGGGG" },
        { id := 8, familyId := 1, joinId := some "HHHHHHHH" },
        { id := 9, familyId := 1, joinId := some "IIIIIIII" } ] }

/-- C5 counterexample. Under `rand36` the draws of iterations 0..8
all collide with members of `db9`, the draw of iteration 9 — the 10th
attempt, inside the design bound — is fresh ("JJJJJJJJ"), yet the
issuer fails with the exhaustion error instead of returning it: the
guard throws once `attempts` reaches 10 before re-testing uniqueness,
so only 9 attempts can ever return. -/
theorem generateJoinId_fresh_tenth_attempt_still_fails :
    (∀ k, k < 9 → (findByJoinId db9 (drawCode rand36 k)).isSome = true) ∧
    drawCode rand36 9 = "JJJJJJJJ" ∧
    findByJoinId db9 (drawCode rand36 9) = none ∧
    generateJoinId db9 rand36 = .error "Unable to generate unique join ID" := by
  refine ⟨?_, by decide, by decide, rfl⟩
  decide

/-- Witness for the amended C5: on an empty store the first draw is
returned (fresh, 8 alphabet characters), and on `db9` with `rand36` the
all-collide hypothesis holds concretely and the issuer fails. -/
theorem generateJoinId_spec_witness :
    (findByJoinId ({} : DB) "AAAAAAAA" = none ∧ ("AAAAAAAA" : String).length = 8 ∧
      (∀ ch ∈ ("AAAAAAAA" : String).toList, ch ∈ alphabetChars) ∧
      ∃ k, k < 9 ∧ ("AAAAAAAA" : String) = drawCode rand36 k) ∧
    generateJoinId db9 rand36 = .error "Unable to generate unique join ID" :=
  ⟨(generateJoinId_spec ({} : DB) rand36).1 "AAAAAAAA" rfl,
   (generateJoinId_spec db9 rand36).2 (by decide)⟩

/-! ## C6: adding a Child with a supplied motherId -/

/-- Family fixture for the C7 counterexample. -/
def famC7 : FamilyRec := { id := 6, name := "C7", creatorId := 106, isMainFamily := true }

/-- Store for the C7 counterexample. -/
def dbC7 : DB := { families := [famC7] }

/-- Father born 1970. -/
def father70 : ParentInput := { firstName := "Fred", lastName := "Fox", birthYear := "1970" }

/-- Mother with the same birth year 1970, spouseOrder 1. -/
def motherEq : MotherInput :=
  { firstName := "Eva", lastName := "Fox", birthYear := "1970", spouseOrder := 1 }

/-- C7 counterexample. The claim requires failure whenever some
mother's birthYear is less than OR EQUAL to the father's; here the
mother's birth year equals the father's (so it is not strictly
greater), yet the call succeeds: the code only rejects mothers born
strictly before the father. -/
theorem setupParents_equal_birth_year_passes :
    jsLe (jsParseInt (some motherEq.birthYear)) (jsParseInt (some father70.birthYear))
      = true ∧
    (setupParents dbC7 6 father70 [motherEq] 106 (fun k => "PCODE00" ++ toString k)
        60 61).outcome = .ok := by
  constructor
  · decide
  · decide

/-- C7 as amended. With authorization passing, `setupParents` fails
with the age-ordering error exactly when some supplied mother's
birthYear is STRICTLY LESS than the father's (equal years pass the age
gate), and on that failure nothing is created: the store is returned
unchanged. -/
theorem setupParents_age_gate
    (db : DB) (familyId : Nat) (father : ParentInput) (mothers : List MotherInput)
    (userId : Nat) (codes : Nat → String) (fatherId baseId : Nat) (family : FamilyRec)
    (hfam : familyById db familyId = some family)
    (hcr : family.creatorId = userId) :
    ((setupParents db familyId father mothers userId codes fatherId baseId).outcome =
        .err 400 "VALIDATION_ERROR" "Father must be older than all mothers" ↔
      (mothers.map (fun m => jsParseInt (some m.birthYear))).any
        (fun year => jsLt year (jsParseInt (some father.birthYear))) = true) ∧
    ((mothers.map (fun m => jsParseInt (some m.birthYear))).any
        (fun year => jsLt year (jsParseInt (some father.birthYear))) = true →
      setupParents db familyId father mothers userId codes fatherId baseId =
        ⟨.err 400 "VALIDATION_ERROR" "Father must be older than all mothers", db⟩) := by
  by_cases h : (mothers.map (fun m => jsParseInt (some m.birthYear))).any
      (fun year => jsLt year (jsParseInt (some father.birthYear))) = true
  · simp [setupParents, hfam, hcr, h]
  · constructor
    · rw [iff_false_intro h]
      simp only [iff_false]
      by_cases hs : spouseSeqOk (mothers.map (fun m => m.spouseOrder)) = true
      · simp [setupParents, hfam, hcr, h, hs]
      · simp [setupParents, hfam, hcr, h, hs]
    · intro hc
      exact absurd hc h

/-- Witness for the amended C7: a mother born strictly before the
father triggers the age error and leaves the store unchanged. -/
theorem setupParents_age_gate_witness :
    setupParents dbC7 6 father70
      [ { firstName := "Old", lastName := "Fox", birthYear := "1960", spouseOrder := 1 } ]
      106 (fun k => "QCODE00" ++ toString k) 62 63 =
      ⟨.err 400 "VALIDATION_ERROR" "Father must be older than all mothers", dbC7⟩ :=
  (setupParents_age_gate dbC7 6 father70
    [ { firstName := "Old", lastName := "Fox", birthYear := "1960", spouseOrder := 1 } ]
    106 (fun k => "QCODE00" ++ toString k) 62 63 famC7 (by decide) (by decide)).2
    (by decide)

/-! ## C9: deathYear present iff isDeceased -/

/-- The record-level invariant of the claim: a member carries a
deathYear exactly when its `isDeceased` flag is set. -/
def memberInv (m : MemberRec) : Bool :=
  m.deathYear.isSome == m.isDeceased

/-- Family fixture for the C9 counterexample. -/
def famC9 : FamilyRec := { id := 8, name := "C9", creatorId := 108, isMainFamily := true }

/-- A deceased member storing a deathYear. -/
def mLate : MemberRec :=
  { id := 81, familyId := 8, joinId := some "LATECODE",
    firstName := "Leo", lastName := "Law", relationship := "Uncle",
    birthYear := some "1930", isDeceased := true, deathYear := some "1990",
    position := 1 }

/-- Store for the C9 counterexample. -/
def dbC9 : DB := { families := [famC9], members := [mLate] }

/-- Update request flipping `isDeceased` to false (validator-legal:
`deathYear` is forbidden unless `isDeceased` is true, so none is sent). -/
def reviveBody : UpdateBody := { isDeceased := some false }

/-- C9 counterexample. `updateFamilyMember` on a deceased member with a
validator-legal request that sets `isDeceased` to false completes, but
`deathYear = deathYear || member.deathYear` retains the stale year:
the resulting record has a deathYear while `isDeceased` is false, so
the claimed invariant does not survive updates. -/
theorem updateFamilyMember_keeps_stale_deathYear :
    memberInv mLate = true ∧
    updateBodyValid reviveBody = true ∧
    (updateFamilyMember dbC9 8 81 reviveBody 108).outcome = .ok ∧
    (memberById (updateFamilyMember dbC9 8 81 reviveBody 108).db 81).map
      (fun m => (m.isDeceased, m.deathYear)) = some (false, some "1990") ∧
    (memberById (updateFamilyMember dbC9 8 81 reviveBody 108).db 81).map memberInv
      = some false := by
  decide

/-- C9 as amended. Member creation establishes the invariant: any
record built by `addFamilyMember` once its deathYear validation passed
satisfies it. `updateFamilyMember` preserves it for every
validator-legal request EXCEPT one that sets `isDeceased` to false on a
member already storing a deathYear — there the stale year is retained
and the invariant breaks, as the counterexample shows. -/
theorem member_death_flag_invariant :
    (∀ (familyId newMemberId : Nat) (body : AddMemberBody) (code pt : String)
        (rb : Bool) (bid : Option Nat),
      (body.isDeceased && !(jsTruthy body.deathYear)) = false →
      memberInv (builtMember familyId newMemberId body code pt rb bid) = true) ∧
    (∀ (m : MemberRec) (b : UpdateBody),
      memberInv m = true → updateBodyValid b = true →
      ¬(b.isDeceased = some false ∧ m.deathYear.isSome = true) →
      memberInv (applyUpdate m b) = true) := by
  constructor
  · intro familyId newMemberId body code pt rb bid h
    cases hd : body.isDeceased with
    | false => simp [memberInv, builtMember, hd]
    | true =>
      rw [hd] at h
      simp only [Bool.true_and, Bool.not_eq_false'] at h
      cases hdy : body.deathYear with
      | none => rw [hdy] at h; simp [jsTruthy] at h
      | some y => simp [memberInv, builtMember, hd, hdy]
  · intro m b hm hv hniff
    cases hd : b.isDeceased with
    | none =>
      simp only [updateBodyValid, hd] at hv
      have hdy : b.deathYear = none := Option.isNone_iff_eq_none.mp hv
      simpa [memberInv, applyUpdate, hd, hdy, jsOrStr] using hm
    | some flag =>
      cases flag with
      | false =>
        simp only [updateBodyValid, hd] at hv
        have hdy : b.deathYear = none := Option.isNone_iff_eq_none.mp hv
        have hnod : m.deathYear.isSome = false := by
          cases hmd : m.deathYear.isSome with
          | false => rfl
          | true => exact absurd ⟨hd, hmd⟩ hniff
        have hmd : m.deathYear = none := by
          cases hmdc : m.deathYear with
          | none => rfl
          | some y => rw [hmdc] at hnod; simp at hnod
        simp [memberInv, applyUpdate, hd, hdy, hmd, jsOrStr]
      | true =>
        simp only [updateBodyValid, hd] at hv
        cases hdy : b.deathYear with
        | none => rw [hdy] at hv; simp at hv
        | some y =>
          rw [hdy] at hv
          have hy : y ≠ "" := by
            intro hc
            rw [hc] at hv
            simp [isFourDigitYear] at hv
          simp [memberInv, applyUpdate, hd, hdy, jsOrStr, hy]

/-- Creation request for the C9 witness (deceased, with deathYear). -/
def bodyC9 : AddMemberBody :=
  { firstName := "Gus", lastName := "Law", relationship := "Cousin",
    birthYear := "1955", isDeceased := true, deathYear := some "1999" }

/-- A living member without deathYear. -/
def mAliveC9 : MemberRec :=
  { id := 82, familyId := 8, joinId := some "ALIVCODE",
    firstName := "Ada", lastName := "Law", relationship := "Aunt",
    birthYear := some "1940", position := 2 }

/-- Validator-legal update marking a member deceased with a year. -/
def bodyC9u : UpdateBody := { isDeceased := some true, deathYear := some "2001" }

/-- Witness for the amended C9: a deceased creation keeps the
invariant, and a legal update marking someone deceased preserves it. -/
theorem member_death_flag_invariant_witness :
    memberInv (builtMember 8 83 bodyC9 "NEWCODE9" "child" false none) = true ∧
    memberInv (applyUpdate mAliveC9 bodyC9u) = true :=
  ⟨member_death_flag_invariant.1 8 83 bodyC9 "NEWCODE9" "child" false none (by decide),
   member_death_flag_invariant.2 mAliveC9 bodyC9u (by decide) (by decide) (by decide)⟩

/-! ## C10: caller-supplied creatorJoinId bypasses the issuer but not
the store indexes -/

/-- The family document `createFamily` creates for a supplied code. -/
def newFamilyRec (famId : Nat) (name : String) (userId : Nat) (c : String) : FamilyRec :=
  { id := famId, name := name, creatorId := userId,
    creatorJoinId := c, isMainFamily := true }

/-- The creator member document `createFamily` creates for a supplied
code. -/
def newCreatorRec (memId famId userId : Nat) (c uf ul : String) : MemberRec :=
  { id := memId, familyId := famId, userId := some userId,
    joinId := some c, firstName := uf, lastName := ul,
    relationship := "Creator", isVerified := true,
    isFamilyCreator := true, position := 1 }

/-- Existing member already holding the code "DUPCODE1". -/
def mDup : MemberRec :=
  { id := 95, familyId := 9, joinId := some "DUPCODE1",
    firstName := "Dot", lastName := "Dee", relationship := "Creator",
    isFamilyCreator := true, position := 1 }

/-- Family that member belongs to (not a main family of user 109). -/
def famDup : FamilyRec :=
  { id := 9, name := "D", creatorId := 110, creatorJoinId := "DUPFAMC0",
    isMainFamily := true }

/-- Store for the C10 counterexample and witness. -/
def dbC10 : DB := { families := [famDup], members := [mDup] }

/-- C10 counterexample. The claim asserts that with a caller-supplied
code the single point at which collision-freedom is checked is skipped.
It is not: the store's unique index on `members.joinId`
(FamilyMember.js line 135) still rejects the duplicate — creating a
family for user 109 with the supplied code "DUPCODE1", already held by
`mDup`, fails with the controller's 500, and no second member holding
the code is ever stored. What the bypass DOES degrade: the failure is a
duplicate-key crash rather than a clean validation error, and because
`createFamily` runs outside any transaction the new Family document —
carrying the duplicated code verbatim — has already been persisted and
is left behind. -/
theorem createFamily_duplicate_code_rejected_by_store :
    mDup.joinId = some "DUPCODE1" ∧
    (createFamily dbC10 109 "Dup" (some "DUPCODE1") "GENCODEX" 10 96 "Ed" "Dee").outcome
      = .err 500 "INTERNAL_ERROR" "Failed to create family" ∧
    (createFamily dbC10 109 "Dup" (some "DUPCODE1") "GENCODEX" 10 96 "Ed" "Dee").db.members
      = dbC10.members ∧
    (createFamily dbC10 109 "Dup" (some "DUPCODE1") "GENCODEX" 10 96 "Ed" "Dee").db.families
      = dbC10.families ++ [newFamilyRec 10 "Dup" 109 "DUPCODE1"] := by
  decide

/-- C10 as amended. With a (truthy) supplied code `c` whose value no
family's `creatorJoinId` already holds: when no member holds `c`
either, the call succeeds and uses `c` verbatim as both the Family's
creator code and the creator member's `joinId`; when an existing member
holds `c`, the member insert trips the store's unique `joinId` index
and the call fails with 500 — after the Family document (with the
duplicated code) has already been persisted. In both cases the issuer
is bypassed: the outcome never depends on the generated code. So the
operation itself performs no uniqueness check, but collision-freedom is
still enforced, one document too late, by the store. -/
theorem createFamily_verbatim_supplied_code
    (db : DB) (userId : Nat) (name c genCode : String) (famId memId : Nat)
    (uf ul : String)
    (hmain : findMainFamilyByUser db userId = none)
    (hc : c ≠ "")
    (hfam : db.families.any (fun f => f.creatorJoinId = c) = false) :
    (db.members.any (fun m => m.joinId = some c) = false →
      createFamily db userId name (some c) genCode famId memId uf ul =
        ⟨.ok, { db with
          families := db.families ++ [newFamilyRec famId name userId c],
          members := db.members ++ [newCreatorRec memId famId userId c uf ul] }⟩) ∧
    (db.members.any (fun m => m.joinId = some c) = true →
      createFamily db userId name (some c) genCode famId memId uf ul =
        ⟨.err 500 "INTERNAL_ERROR" "Failed to create family",
         { db with families := db.families ++ [newFamilyRec famId name userId c] }⟩) ∧
    (∀ g2, createFamily db userId name (some c) g2 famId memId uf ul =
      createFamily db userId name (some c) genCode famId memId uf ul) := by
  refine ⟨?_, ?_, ?_⟩
  · intro hdup
    simp [createFamily, hmain, jsOrField, hc, hfam, hdup, newFamilyRec, newCreatorRec]
  · intro hdup
    simp [createFamily, hmain, jsOrField, hc, hfam, hdup, newFamilyRec]
  · intro g2
    simp [createFamily, hmain, jsOrField, hc]

/-- Witness for the amended C10: on `dbC10`, the fresh supplied code
"FRESHCD1" succeeds with both documents carrying it verbatim, and the
duplicated "DUPCODE1" fails at the member insert leaving the orphan
family behind. -/
theorem createFamily_verbatim_supplied_code_witness :
    (createFamily dbC10 109 "Dup" (some "FRESHCD1") "GENCODEX" 10 96 "Ed" "Dee" =
      ⟨.ok, { dbC10 with
        families := dbC10.families ++ [newFamilyRec 10 "Dup" 109 "FRESHCD1"],
        members := dbC10.members ++ [newCreatorRec 96 10 109 "FRESHCD1" "Ed" "Dee"] }⟩) ∧
    (createFamily dbC10 109 "Dup" (some "DUPCODE1") "GENCODEX" 10 96 "Ed" "Dee" =
      ⟨.err 500 "INTERNAL_ERROR" "Failed to create family",
       { dbC10 with families := dbC10.families ++ [newFamilyRec 10 "Dup" 109 "DUPCODE1"] }⟩) :=
  ⟨(createFamily_verbatim_supplied_code dbC10 109 "Dup" "FRESHCD1" "GENCODEX" 10 96
      "Ed" "Dee" (by decide) (by decide) (by decide)).1 (by decide),
   (createFamily_verbatim_supplied_code dbC10 109 "Dup" "DUPCODE1" "GENCODEX" 10 96
      "Ed" "Dee" (by decide) (by decide) (by decide)).2.1 (by decide)⟩

end FamLink
